import Mathlib

/-!
# Verification of the backup-teams synchronization engine

Shallow embedding of the core of the `backup-teams` repository:

* `src/graph_client.py` — retrying Graph API client (`GraphClient._get`,
  `GraphClient.download_file`, `GraphClient._get_all`);
* `src/db.py` — catalog access (`get_archive_etag`, `is_file_current`,
  `upsert_archive`);
* `src/storage.py` / `src/downloader.py` — download + S3 upload + catalog
  upsert (`download_item`, `_build_s3_key`);
* `src/teams_scraper.py` — orchestration (`_download_with_semaphore`,
  `_walk_folder`, `_get_channels_with_fallback`, `_process_team`,
  `ScrapingStats`);
* `src/utils.py` — `sanitize`.

Python exceptions are modelled with `Except`; the mutable world (catalog
rows, S3 objects, local files) is threaded explicitly; instrumentation
counters record the calls the spec's properties quantify over.
-/

namespace BackupTeams

/-- Python exception values, as classified by the code under verification.
`httpStatus` stands for `httpx.HTTPStatusError`, `runtimeError` for
`RuntimeError`, `typeError` for `TypeError`, `exc` for any other
`Exception`.  The string is `str(exc)`. -/
inductive PyErr : Type
  | httpStatus (code : Nat) (msg : String)
  | runtimeError (msg : String)
  | typeError (msg : String)
  | exc (msg : String)
deriving DecidableEq

/-- `str(exc)` for a modelled Python exception. -/
def PyErr.msg : PyErr → String
  | .httpStatus _ m => m
  | .runtimeError m => m
  | .typeError m => m
  | .exc m => m

/-- Whether `n` occurs as a contiguous sublist of `h`. -/
def listContains (n : List Char) : List Char → Bool
  | [] => n.isEmpty
  | c :: t => n.isPrefixOf (c :: t) || listContains n t

/-- `needle in hay` on Python strings. -/
def strContains (needle hay : String) : Bool :=
  listContains needle.toList hay.toList

/-! ## Protocol client (`src/graph_client.py`) -/

/-- `MAX_RETRIES` (graph_client.py line 20). -/
def MAX_RETRIES : Nat := 5

/-- One HTTP attempt's outcome as seen inside `GraphClient._get` /
`GraphClient.download_file`: either a network-level exception
(`httpx.ConnectError` / `httpx.ReadTimeout`) or a response with a status
code, an optional integer `Retry-After` header, and a body. -/
inductive Resp (α : Type) : Type
  | netErr (msg : String)
  | status (code : Nat) (retryAfter : Option Nat) (body : α)

/-- One iteration of the retry loop shared by `GraphClient._get`
(lines 62–99) and `GraphClient.download_file` (lines 201–225).
`delay` is the current backoff in seconds (floats in the source stay
integral: the base is 2.0 and every update doubles or takes a `max` with
an integer header).  Returns `.inl` when the loop exits (returned value
or raised exception) and `.inr (sleep, newDelay)` when the loop sleeps
and continues with the next attempt. -/
def getStep {α : Type} (r : Resp α) (msg401 : String) (delay : Nat) :
    (Except PyErr α) ⊕ (Nat × Nat) :=
  match r with
  | .netErr _ => .inr (delay, delay * 2)
  | .status code retryAfter body =>
    if code = 429 then
      -- retry_after = int(resp.headers.get("Retry-After", delay))
      let ra := retryAfter.getD delay
      -- await asyncio.sleep(retry_after); delay = max(delay * 2, retry_after)
      .inr (ra, max (delay * 2) ra)
    else if code = 401 then
      .inl (.error (.httpStatus 401 msg401))
    else if 400 ≤ code then
      -- resp.raise_for_status()
      .inl (.error (.httpStatus code ("HTTP status " ++ toString code)))
    else
      .inl (.ok body)

/-- Result of a full client call: the returned value or raised exception,
the sequence of sleeps performed (in seconds, in order), and the number of
attempts made. -/
structure GetResult (α : Type) : Type where
  outcome : Except PyErr α
  sleeps : List Nat
  attempts : Nat

/-- The `for attempt in range(1, MAX_RETRIES + 1)` loop of
`GraphClient._get` / `GraphClient.download_file`, with the trailing
`raise RuntimeError(...)` when the loop ends.  `resp attempt` is the
outcome of the HTTP request made on that attempt; `fuel` is the number of
attempts remaining. -/
def clientLoop {α : Type} (resp : Nat → Resp α) (msg401 exhaustMsg : String) :
    (fuel attempt delay : Nat) → GetResult α
  | 0, _, _ => ⟨.error (.runtimeError exhaustMsg), [], 0⟩
  | fuel + 1, attempt, delay =>
    match getStep (resp attempt) msg401 delay with
    | .inl r => ⟨r, [], 1⟩
    | .inr (slp, delay') =>
      let rest := clientLoop resp msg401 exhaustMsg fuel (attempt + 1) delay'
      ⟨rest.outcome, slp :: rest.sleeps, rest.attempts + 1⟩

/-- `GraphClient._get(url)` (graph_client.py lines 50–101): retry loop
starting at attempt 1 with backoff 2.0, at most `MAX_RETRIES` attempts. -/
def graphGet {α : Type} (resp : Nat → Resp α) (url : String) : GetResult α :=
  clientLoop resp "Bearer token expired (401). Re-auth required."
    ("Graph API request to '" ++ url ++ "' failed after " ++
      toString MAX_RETRIES ++ " retries.")
    MAX_RETRIES 1 2

/-- `GraphClient.download_file(drive_id, item_id)` (graph_client.py lines
192–227): same retry loop, different 401 / exhaustion messages. -/
def downloadFile {α : Type} (resp : Nat → Resp α) (itemId : String) : GetResult α :=
  clientLoop resp "Bearer token expired during download."
    ("File download failed after " ++ toString MAX_RETRIES ++
      " retries (item " ++ itemId ++ ").")
    MAX_RETRIES 1 2

/-! ## Pagination (`GraphClient._get_all`, lines 105–113) -/

/-- The parts of a Graph response body `_get_all` reads: `data.get("value",
[])` and `data.get("@odata.nextLink")`.  An absent `value` field is the
empty list. -/
structure PageBody (α : Type) : Type where
  value : List α
  nextLink : Option String

/-- The `while next_url:` loop of `_get_all`.  `fetch url withParams`
stands for `await self._get(next_url, **(params if next_url == url else
{}))` (the Bool is `next_url == url`, i.e. whether the original query
parameters are re-sent); `origUrl` is the `url` argument; `acc` is
`results`; `fuel` bounds the number of pages fetched (the Python loop
runs until `next_url` is `None`). -/
def getAllLoop {α : Type} (fetch : String → Bool → PageBody α) (origUrl : String) :
    (fuel : Nat) → Option String → List α → Option (List α)
  | _, none, acc => some acc
  | 0, some _, _ => none
  | fuel + 1, some url, acc =>
    let data := fetch url (url == origUrl)
    getAllLoop fetch origUrl fuel data.nextLink (acc ++ data.value)

/-- `GraphClient._get_all(url)`: follow `@odata.nextLink` pages and return
all items concatenated.  `some` when the chain ends within `fuel` pages. -/
def getAll {α : Type} (fetch : String → Bool → PageBody α) (url : String)
    (fuel : Nat) : Option (List α) :=
  getAllLoop fetch url fuel (some url) []

/-! ## Filename sanitisation (`src/utils.py`) -/

/-- `_ILLEGAL_CHARS = re.compile(r'[\\/:*?"<>|]')` (utils.py line 32). -/
def illegalChars : List Char := ['\\', '/', ':', '*', '?', '"', '<', '>', '|']

/-- Python's `\s` on the ASCII range: space, tab, newline, carriage
return, vertical tab, form feed (utils.py line 33). -/
def pyIsSpace (c : Char) : Bool :=
  c = ' ' || c = '\t' || c = '\n' || c = '\x0d' || c = '\x0b' || c = '\x0c'

/-- `_ILLEGAL_CHARS.sub("_", name)`: each illegal character becomes `_`. -/
def subIllegal (l : List Char) : List Char :=
  l.map fun c => if c ∈ illegalChars then '_' else c

/-- `_WHITESPACE.sub(" ", name)`: each maximal run of whitespace becomes a
single space.  The flag records whether the previous character was part of
a whitespace run (so only the first character of each run emits the
space). -/
def collapseWSAux (prevSpace : Bool) : List Char → List Char
  | [] => []
  | c :: cs =>
    if pyIsSpace c then
      if prevSpace then collapseWSAux true cs
      else ' ' :: collapseWSAux true cs
    else c :: collapseWSAux false cs

/-- `_WHITESPACE.sub(" ", name)` on a character list. -/
def collapseWS (l : List Char) : List Char := collapseWSAux false l

/-- Python `str.strip()`: drop whitespace from both ends. -/
def pyStrip (l : List Char) : List Char :=
  ((l.dropWhile pyIsSpace).reverse.dropWhile pyIsSpace).reverse

/-- `utils.sanitize(name)` (utils.py lines 36–43): replace illegal
characters with `_`, collapse whitespace runs to a single space, strip,
and fall back to `"unnamed"` when the result is empty. -/
def sanitize (s : String) : String :=
  let l := pyStrip (collapseWS (subIllegal s.toList))
  if l.isEmpty then "unnamed" else ⟨l⟩

/-! ## Path suffix / stem helpers (Python `pathlib.Path`) -/

/-- Index of the last `.` in a file name, if any (CPython `str.rfind`). -/
def rfindDot (l : List Char) : Option Nat :=
  ((List.range l.length).filter fun i => l.get? i = some '.').getLast?

/-- `Path(name).suffix` for a bare file name: `name[i:]` where `i` is the
last dot, provided `0 < i < len(name) - 1`; otherwise `""`. -/
def pySuffix (name : String) : String :=
  let l := name.toList
  match rfindDot l with
  | some i => if 0 < i ∧ i < l.length - 1 then ⟨l.drop i⟩ else ""
  | none => ""

/-- `Path(name).stem` for a bare file name: the name minus its suffix. -/
def pyStem (name : String) : String :=
  ⟨name.toList.take (name.toList.length - (pySuffix name).toList.length)⟩

/-- `Path(file_name).suffix.lstrip(".").lower() or "bin"`
(downloader.py line 90). -/
def fileExtensionOf (fileName : String) : String :=
  let e := ((pySuffix fileName).toList.dropWhile (· = '.')).map Char.toLower
  if e.isEmpty then "bin" else ⟨e⟩

/-! ## Data model -/

/-- What a drive child dict exposes to the walker/downloader: `"folder" in
child`, `"file" in child`, or neither. -/
inductive ChildKind : Type
  | folder
  | file
  | other
deriving DecidableEq

/-- A Graph drive item as the scraper reads it: `item["id"]`,
`item["name"]`, `item.get("eTag")` (absent on some tenants), and which of
the `folder` / `file` facets it carries. -/
structure Item : Type where
  id : String
  name : String
  eTag : Option String
  kind : ChildKind
deriving DecidableEq

/-- `item.get("eTag", item.get("id"))` (downloader.py line 88,
teams_scraper.py line 154): the change fingerprint, falling back to the
item's own id. -/
def pyEtag (item : Item) : String := item.eTag.getD item.id

/-- One row of the `archive` table as written by `db.upsert_archive`
(db.py lines 154–181; the SQL sets exactly these columns — note there is
no `s3_key` column in the INSERT). -/
structure ArchiveRow : Type where
  classId : Nat
  fileName : String
  fileExtension : String
  localPath : List String
  driveItemId : String
  etag : String
deriving DecidableEq

/-- Insert-or-update on an association list, keyed on the first component
(models `INSERT ... ON CONFLICT ... DO UPDATE`). -/
def upsertAssoc {κ ν : Type} [BEq κ] (k : κ) (v : ν) :
    List (κ × ν) → List (κ × ν)
  | [] => [(k, v)]
  | (k', v') :: rest =>
    if k' == k then (k, v) :: rest else (k', v') :: upsertAssoc k v rest

/-- Remove the entry for a key from an association list. -/
def removeAssoc {κ ν : Type} [BEq κ] (k : κ) (l : List (κ × ν)) :
    List (κ × ν) :=
  l.filter fun kv => !(kv.1 == k)

/-- The mutable world the sync engine touches: the `archive` table (keyed
by `drive_item_id`), the S3 bucket contents (keyed by the S3 key, split
into path segments), and the local download directory (keyed by path
segments).  File contents are byte lists. -/
structure World : Type where
  archive : List (String × ArchiveRow)
  s3 : List (List String × List Nat)
  localDisk : List (List String × List Nat)
deriving DecidableEq

/-- The empty world at run start. -/
def World.empty : World := ⟨[], [], []⟩

/-- The keyword arguments `downloader.download_item` passes to
`db_mod.upsert_archive` (downloader.py lines 125–134) — including the
`s3_key` keyword. -/
structure UpsertKwargs : Type where
  classId : Nat
  fileName : String
  fileExtension : String
  localPath : List String
  driveItemId : String
  etag : String
  s3Key : Option (List String)
deriving DecidableEq

/-- Instrumentation: calls performed during a run, for the spec's
call-count properties.  `upsertArgs` records every invocation of
`db_mod.upsert_archive` from `download_item` (with the arguments passed);
`semAcquired` counts `async with semaphore:` entries. -/
structure Trace : Type where
  downloadCalls : Nat := 0
  uploadCalls : Nat := 0
  localWrites : Nat := 0
  semAcquired : Nat := 0
  upsertArgs : List UpsertKwargs := []
deriving DecidableEq

/-- `ScrapingStats` (teams_scraper.py lines 45–53). -/
structure ScrapingStats : Type where
  teams_total : Nat := 0
  teams_denied : Nat := 0
  teams_fallback : Nat := 0
  channels_total : Nat := 0
  files_new : Nat := 0
  files_skipped : Nat := 0
  files_error : Nat := 0
deriving DecidableEq

/-- External collaborators and configuration fixed for a run:
`S3_BUCKET`, `DOWNLOAD_ROOT` (as path segments), the timestamp
`versioned_backup_path` would embed, the Graph download operation
(bytes or raised exception, per item id) and whether the S3 upload of a
given key raises. -/
structure Env : Type where
  s3Bucket : String
  downloadRoot : List String
  ts : String
  download : String → Except PyErr (List Nat)
  uploadFails : List String → Bool

/-! ## Catalog access (`src/db.py`) -/

/-- `db.get_archive_etag(pool, drive_item_id)` (db.py lines 125–138):
the stored etag, or `none` when the item was never recorded. -/
def get_archive_etag (w : World) (driveItemId : String) : Option String :=
  (w.archive.lookup driveItemId).map (·.etag)

/-- `db.is_file_current(pool, drive_item_id, current_etag)` (db.py lines
141–151): `stored is not None and stored == current_etag`. -/
def is_file_current (w : World) (driveItemId currentEtag : String) : Bool :=
  match get_archive_etag w driveItemId with
  | some stored => stored == currentEtag
  | none => false

/-- The keyword parameters `db.upsert_archive` declares (db.py lines
154–163). -/
def dbUpsertParams : List String :=
  ["class_id", "file_name", "file_extension", "local_path",
   "drive_item_id", "etag"]

/-- The keyword arguments `download_item` passes at its `upsert_archive`
call site (downloader.py lines 125–134). -/
def downloaderUpsertKwargNames : List String :=
  ["class_id", "file_name", "file_extension", "local_path",
   "drive_item_id", "etag", "s3_key"]

/-- The call `db_mod.upsert_archive(pool, class_id=..., ..., s3_key=...)`:
Python binds the keyword arguments against `db.upsert_archive`'s
signature; an argument name the signature does not declare raises
`TypeError` before the function body runs.  When binding succeeds the
body performs the `INSERT ... ON CONFLICT (drive_item_id) DO UPDATE`. -/
def callUpsertArchive (w : World) (a : UpsertKwargs) : Except PyErr World :=
  if downloaderUpsertKwargNames.all (fun n => dbUpsertParams.contains n) then
    .ok { w with
      archive := upsertAssoc a.driveItemId
        ⟨a.classId, a.fileName, a.fileExtension, a.localPath,
         a.driveItemId, a.etag⟩ w.archive }
  else
    .error (.typeError
      "upsert_archive() got an unexpected keyword argument 's3_key'")

/-! ## Sync engine (`src/downloader.py`) -/

/-- `downloader._build_s3_key(local_path)` (downloader.py lines 44–63):
strip the `DOWNLOAD_ROOT` prefix (falling back to the bare file name) and
prepend the `backup_teams` namespace. -/
def buildS3Key (env : Env) (localPath : List String) : List String :=
  let relative :=
    if env.downloadRoot.isPrefixOf localPath then
      localPath.drop env.downloadRoot.length
    else
      [localPath.getLastD ""]
  "backup_teams" :: relative

/-- `utils.versioned_backup_path(original)` (utils.py lines 65–77):
`{stem}_backup_{timestamp}{suffix}` next to the original. -/
def versionedBackupPath (ts : String) (p : List String) : List String :=
  let name := p.getLastD ""
  p.dropLast ++ [pyStem name ++ "_backup_" ++ ts ++ pySuffix name]

/-- `local_path.exists()` against the modelled local disk. -/
def localExists (w : World) (p : List String) : Bool :=
  (w.localDisk.lookup p).isSome

/-- `local_path.rename(backup)` (downloader.py lines 100–101). -/
def renameToBackup (env : Env) (w : World) (p : List String) : World :=
  match w.localDisk.lookup p with
  | none => w
  | some content =>
    let disk := upsertAssoc (versionedBackupPath env.ts p) content
      (removeAssoc p w.localDisk)
    { w with localDisk := disk }

/-- `downloader.download_item(graph, pool, drive_id=…, item=…, class_id=…,
local_path=…)` (downloader.py lines 66–134).  Returns the updated world,
the updated trace, and the Python outcome: `.ok none` models the
function's implicit `return None` (it has no `return <value>` statement),
`.error e` a raised exception.  Step numbering follows the docstring. -/
def download_item (env : Env) (item : Item) (classId : Nat)
    (localPath : List String) (w : World) (t : Trace) :
    World × Trace × Except PyErr (Option String) :=
  let itemId := item.id
  let etag := pyEtag item
  let fileName := item.name
  let extension := fileExtensionOf fileName
  -- Step 1: check if up-to-date
  if is_file_current w itemId etag then
    (w, t, .ok none)
  else
    -- Step 2: conflict — file exists but changed
    let storedEtag := get_archive_etag w itemId
    let w :=
      if storedEtag.isSome && localExists w localPath then
        renameToBackup env w localPath
      else w
    -- Steps 3 + 4: download and write to disk
    let t := { t with downloadCalls := t.downloadCalls + 1 }
    match env.download itemId with
    | .error e => (w, t, .error e)
    | .ok content =>
      let w := { w with localDisk := upsertAssoc localPath content w.localDisk }
      let t := { t with localWrites := t.localWrites + 1 }
      -- Step 5: upload to S3 (upload exceptions are caught and logged)
      let (w, t, s3Key) :=
        if env.s3Bucket ≠ "" then
          let key := buildS3Key env localPath
          let t := { t with uploadCalls := t.uploadCalls + 1 }
          if env.uploadFails key then (w, t, none)
          else ({ w with s3 := upsertAssoc key content w.s3 }, t, some key)
        else (w, t, none)
      -- Step 6: persist record
      let args : UpsertKwargs :=
        ⟨classId, fileName, extension, localPath, itemId, etag, s3Key⟩
      let t := { t with upsertArgs := t.upsertArgs ++ [args] }
      match callUpsertArchive w args with
      | .ok w' => (w', t, .ok none)
      | .error e => (w, t, .error e)

/-! ## Orchestration (`src/teams_scraper.py`) -/

/-- `_download_with_semaphore(graph, pool, semaphore, stats, **kwargs)`
(teams_scraper.py lines 145–179): etag pre-check before the semaphore,
then the guarded download with the `"ok"` / `"skip"` / else result
classification and the blanket `except Exception` branch.  The function
always returns normally (it never re-raises), which the total return type
reflects. -/
def downloadWithSemaphore (env : Env) (item : Item) (classId : Nat)
    (localPath : List String) (w : World) (t : Trace)
    (stats : ScrapingStats) : World × Trace × ScrapingStats :=
  let itemId := item.id
  let etag := pyEtag item
  -- etag check BEFORE semaphore
  if is_file_current w itemId etag then
    (w, t, { stats with files_skipped := stats.files_skipped + 1 })
  else
    -- async with semaphore:
    let t := { t with semAcquired := t.semAcquired + 1 }
    match download_item env item classId localPath w t with
    | (w, t, .ok result) =>
      if result == some "ok" then
        (w, t, { stats with files_new := stats.files_new + 1 })
      else if result == some "skip" then
        (w, t, { stats with files_skipped := stats.files_skipped + 1 })
      else
        (w, t, { stats with files_error := stats.files_error + 1 })
    | (w, t, .error _) =>
      (w, t, { stats with files_error := stats.files_error + 1 })

/-- `_walk_folder(graph, pool, semaphore, stats, drive_id=…, item_id=…,
class_id=…, local_base=…)` (teams_scraper.py lines 96–142).
`listChildren` models `graph.list_drive_children(drive_id, ·)`; a listing
exception makes the walk return with nothing done.  The
`asyncio.gather` of child tasks is sequentialised in child order; `fuel`
bounds the recursion depth. -/
def walkFolder (env : Env) (listChildren : String → Except PyErr (List Item))
    (classId : Nat) :
    (fuel : Nat) → (itemId : String) → (localBase : List String) →
    World × Trace × ScrapingStats → World × Trace × ScrapingStats
  | 0, _, _, acc => acc
  | fuel + 1, itemId, localBase, acc =>
    match listChildren itemId with
    | .error _ => acc
    | .ok children =>
      children.foldl
        (fun acc child =>
          let (w, t, stats) := acc
          let name := sanitize child.name
          match child.kind with
          | .folder =>
            walkFolder env listChildren classId fuel child.id
              (localBase ++ [name]) (w, t, stats)
          | .file =>
            downloadWithSemaphore env child classId (localBase ++ [name])
              w t stats
          | .other => (w, t, stats))
        acc

/-! ## Channel listing with retry + fallback (`teams_scraper.py` 184–222) -/

/-- `MAX_CHANNEL_RETRIES` (teams_scraper.py line 39). -/
def MAX_CHANNEL_RETRIES : Nat := 0

/-- `CHANNEL_RETRY_DELAY` (teams_scraper.py line 40). -/
def CHANNEL_RETRY_DELAY : Nat := 5

/-- `is_forbidden = "403" in str(exc) or "Forbidden" in str(exc)`
(teams_scraper.py line 197). -/
def isForbiddenExc (e : PyErr) : Bool :=
  strContains "403" e.msg || strContains "Forbidden" e.msg

/-- The `for attempt in range(1, MAX_CHANNEL_RETRIES + 2)` loop of
`_get_channels_with_fallback` (lines 192–206): return the channel list on
success; on an exception, retry (after a sleep) only while
`attempt <= MAX_CHANNEL_RETRIES and is_forbidden`, else break.  `fuel` is
the number of loop iterations remaining; `none` means the loop was left
without a successful listing. -/
def channelsAttempts {α : Type} (lc : Nat → Except PyErr (List α)) :
    (fuel attempt : Nat) → Option (List α)
  | 0, _ => none
  | fuel + 1, attempt =>
    match lc attempt with
    | .ok chs => some chs
    | .error e =>
      if attempt ≤ MAX_CHANNEL_RETRIES ∧ isForbiddenExc e then
        channelsAttempts lc fuel (attempt + 1)
      else none

/-- `_get_channels_with_fallback(graph, team_id, team_name, stats)`
(teams_scraper.py lines 184–222).  `lc attempt` models
`graph.list_channels(team_id)` on the given attempt; `primary` models
`graph.get_primary_channel(team_id)`.  Returns the channel list (or
`none`), the updated stats, and the number of calls made to the
primary-channel fallback. -/
def getChannelsWithFallback {α : Type} (lc : Nat → Except PyErr (List α))
    (primary : Except PyErr α) (stats : ScrapingStats) :
    Option (List α) × ScrapingStats × Nat :=
  match channelsAttempts lc (MAX_CHANNEL_RETRIES + 1) 1 with
  | some chs => (some chs, stats, 0)
  | none =>
    match primary with
    | .ok p =>
      (some [p], { stats with teams_fallback := stats.teams_fallback + 1 }, 1)
    | .error _ =>
      (none, { stats with teams_denied := stats.teams_denied + 1 }, 1)

/-- The two per-team passes of `_process_team` (teams_scraper.py lines
429–482). -/
inductive Phase : Type
  | channelPass
  | sitePass
deriving DecidableEq

/-- The pass structure of `_process_team`: the channel pass runs only when
`_get_channels_with_fallback` returned a channel list (`if channels is not
None:`), and `_process_site_drives` is invoked unconditionally
afterwards. -/
def processTeamPhases {α : Type} (channels : Option (List α)) : List Phase :=
  (if channels.isSome then [Phase.channelPass] else []) ++ [Phase.sitePass]

/-! ## Concrete fixtures for closed-theorem runs -/

/-- A fresh trace at run start. -/
def Trace.empty : Trace := {}

/-- Fresh stats at run start (`stats = ScrapingStats()`). -/
def ScrapingStats.empty : ScrapingStats := {}

/-- A run environment where every collaborator succeeds: S3 configured,
download returns the byte `[37]`, uploads succeed. -/
def envOK : Env :=
  { s3Bucket := "bkt"
    downloadRoot := ["downloads"]
    ts := "20250224T163700"
    download := fun _ => .ok [37]
    uploadFails := fun _ => false }

/-- Like `envOK` but every S3 upload raises. -/
def envStorageFail : Env := { envOK with uploadFails := fun _ => true }

/-- Like `envOK` but the Graph download raises the 401
credential-expired error. -/
def envTokenExpired : Env :=
  { envOK with
    download := fun _ =>
      .error (.httpStatus 401 "Bearer token expired during download.") }

/-- Spec scenario 1's item `A` with fingerprint `F1`. -/
def itemA : Item := { id := "A", name := "notes.pdf", eTag := some "F1", kind := .file }

/-- The local path the walker would hand `download_item` for `itemA`. -/
def lpA : List String := ["downloads", "Calculus", "General", "notes.pdf"]

/-- The S3 key `_build_s3_key` derives from `lpA` under `envOK`. -/
def s3KeyA : List String := ["backup_teams", "Calculus", "General", "notes.pdf"]

/-- Two successive `syncItem` runs (`_download_with_semaphore`) on the
same item with unchanged fingerprint, starting from an empty world. -/
def syncTwice : World × Trace × ScrapingStats :=
  let r1 := downloadWithSemaphore envOK itemA 7 lpA World.empty Trace.empty
    ScrapingStats.empty
  downloadWithSemaphore envOK itemA 7 lpA r1.1 r1.2.1 r1.2.2

/-- A three-page chain for the pagination witness. -/
def fetch3 : String → Bool → PageBody Nat := fun u _ =>
  if u = "a" then ⟨[0], some "b"⟩
  else if u = "b" then ⟨[1], some "c"⟩
  else ⟨[2], none⟩

/-- The urls of the three-page chain. -/
def urls3 : Nat → String := fun i => if i = 0 then "a" else if i = 1 then "b" else "c"

/-- The page contents of the three-page chain. -/
def vals3 : Nat → List Nat := fun i => [i]

/-! ## Helper lemmas -/

/-- `local_path.rename(backup)` touches only the local disk: the catalog
and the S3 bucket are unchanged. -/
theorem renameToBackup_archive (env : Env) (w : World) (p : List String) :
    (renameToBackup env w p).archive = w.archive ∧
    (renameToBackup env w p).s3 = w.s3 := by
  unfold renameToBackup
  cases w.localDisk.lookup p <;> simp

/-- Binding `download_item`'s keyword arguments (which include `s3_key`)
against `db.upsert_archive`'s parameter list always raises `TypeError`:
the signature declares no `s3_key` parameter. -/
theorem callUpsertArchive_typeError (w : World) (a : UpsertKwargs) :
    callUpsertArchive w a =
      .error (.typeError
        "upsert_archive() got an unexpected keyword argument 's3_key'") := rfl

/-- The site-drives pass appears in every `_process_team` run, whatever
the channel pass produced. -/
theorem sitePass_mem_processTeamPhases {α : Type} (channels : Option (List α)) :
    Phase.sitePass ∈ processTeamPhases channels := by
  unfold processTeamPhases
  cases channels <;> simp

/-! ## Claim theorems -/

/-- C1: the claim states that syncing a file item with no catalog record
returns `ok`, creates a catalog row with the item's fingerprint, stores an
object at the derived key, and increments `files_new`.  Evaluating the
embedded code at exactly that input (fresh world, item `A` with
fingerprint `F1`, S3 configured and succeeding) shows the storage object
is created, but no catalog row exists afterwards, `files_new` stays `0`,
and the item is counted in `files_error` instead: `download_item` passes
the `s3_key` keyword to `db.upsert_archive`, whose signature does not
declare it, so the catalog call raises `TypeError`; moreover
`download_item` returns `None`, never the string `"ok"` that
`_download_with_semaphore` compares against. -/
theorem c1_new_item_run :
    (downloadWithSemaphore envOK itemA 7 lpA World.empty Trace.empty
        ScrapingStats.empty).2.2.files_new = 0 ∧
    (downloadWithSemaphore envOK itemA 7 lpA World.empty Trace.empty
        ScrapingStats.empty).2.2.files_error = 1 ∧
    (downloadWithSemaphore envOK itemA 7 lpA World.empty Trace.empty
        ScrapingStats.empty).1.archive.lookup "A" = none ∧
    (downloadWithSemaphore envOK itemA 7 lpA World.empty Trace.empty
        ScrapingStats.empty).1.s3.lookup s3KeyA = some [37] ∧
    (downloadWithSemaphore envOK itemA 7 lpA World.empty Trace.empty
        ScrapingStats.empty).2.1.upsertArgs.length = 1 :=
  ⟨rfl, rfl, rfl, rfl, rfl⟩

/-- C5: the claim states that syncing the same item (stable fingerprint
`F1`) twice performs exactly one storage write, leaves exactly one catalog
record, and makes the second call skip with no network or storage calls.
Evaluating the embedded code on two successive calls shows two downloads,
two uploads, an empty catalog, no skip, and two errors: the first call's
catalog upsert raises `TypeError` (`s3_key` keyword not accepted by
`db.upsert_archive`), so no record is written and the second call's
fingerprint pre-check finds nothing and re-downloads. -/
theorem c5_idempotence_broken :
    syncTwice.2.1.downloadCalls = 2 ∧ syncTwice.2.1.uploadCalls = 2 ∧
    syncTwice.1.archive = [] ∧ syncTwice.2.2.files_skipped = 0 ∧
    syncTwice.2.2.files_error = 2 :=
  ⟨rfl, rfl, rfl, rfl, rfl⟩

/-- C2 counterexample: the claim states that when the S3 upload raises,
the number of `upsert_archive` invocations for the item is exactly zero.
Running the embedded `syncItem` on a fresh item with a failing S3 upload
shows the catalog write is invoked exactly once (the `except` around the
upload swallows the storage error and execution continues to step 6), so
the count is not zero. -/
theorem c2_counterexample :
    (downloadWithSemaphore envStorageFail itemA 7 lpA World.empty Trace.empty
        ScrapingStats.empty).2.1.upsertArgs.length = 1 ∧
    (downloadWithSemaphore envStorageFail itemA 7 lpA World.empty Trace.empty
        ScrapingStats.empty).2.1.upsertArgs.length ≠ 0 :=
  ⟨rfl, by decide⟩

/-- C2 (amended): for every item whose S3 upload raises during
`download_item`, the storage exception is caught, the catalog write
(`upsert_archive`) is invoked exactly once for that item — with a null
`s3_key` — and the operation then raises out of the catalog call (the
`s3_key` keyword is not accepted), leaving the catalog rows unchanged. -/
theorem c2_storage_failure_upserts_once (env : Env) (item : Item) (cid : Nat)
    (lp : List String) (w : World) (t : Trace) (bs : List Nat)
    (hb : env.s3Bucket ≠ "")
    (hf : env.uploadFails (buildS3Key env lp) = true)
    (hd : env.download item.id = .ok bs)
    (hc : is_file_current w item.id (pyEtag item) = false) :
    (download_item env item cid lp w t).2.1.upsertArgs =
      t.upsertArgs ++
        [⟨cid, item.name, fileExtensionOf item.name, lp, item.id,
          pyEtag item, none⟩] ∧
    (download_item env item cid lp w t).1.archive = w.archive ∧
    ∃ m, (download_item env item cid lp w t).2.2 = .error (.typeError m) := by
  simp [download_item, hc, hd, if_pos hb, hf, callUpsertArchive_typeError]
  split <;> simp [renameToBackup_archive env w lp]

/-- C2 witness: the amended statement at the concrete failing-S3 run. -/
theorem c2_storage_failure_upserts_once_witness :
    (download_item envStorageFail itemA 7 lpA World.empty Trace.empty).2.1.upsertArgs =
      Trace.empty.upsertArgs ++
        [⟨7, itemA.name, fileExtensionOf itemA.name, lpA, itemA.id,
          pyEtag itemA, none⟩] ∧
    (download_item envStorageFail itemA 7 lpA World.empty Trace.empty).1.archive =
      World.empty.archive ∧
    ∃ m, (download_item envStorageFail itemA 7 lpA World.empty Trace.empty).2.2 =
      .error (.typeError m) :=
  c2_storage_failure_upserts_once envStorageFail itemA 7 lpA World.empty
    Trace.empty [37] (by decide) rfl rfl rfl

/-- C3 counterexample: the claim states the credential-expired (401)
error propagates to the top of the run's call stack uncaught.  Running
the embedded code with a download that raises the 401 error shows the
blanket `except Exception` in `_download_with_semaphore` absorbs it —
the call returns normally and the item is merely counted in
`files_error`; likewise `_walk_folder` swallows a 401 raised while
listing children and returns with stats untouched. -/
theorem c3_counterexample :
    (downloadWithSemaphore envTokenExpired itemA 7 lpA World.empty Trace.empty
        ScrapingStats.empty).2.2 =
      { ScrapingStats.empty with files_error := 1 } ∧
    walkFolder envTokenExpired
        (fun _ => .error
          (.httpStatus 401 "Bearer token expired (401). Re-auth required."))
        7 1 "root" ["downloads"]
        (World.empty, Trace.empty, ScrapingStats.empty) =
      (World.empty, Trace.empty, ScrapingStats.empty) :=
  ⟨rfl, rfl⟩

/-- C3 (amended): a 401 response makes the protocol client raise the
distinct credential-expired error on that very attempt — no retry, no
sleep — but the error does not reach the top of the run: the
orchestrator's per-file handler catches every exception from
`download_item` and records the item in `files_error`, returning
normally. -/
theorem c3_credential_expired_not_retried_but_caught {α : Type}
    (resp : Nat → Resp α) (url : String) (ra : Option Nat) (body : α)
    (h1 : resp 1 = .status 401 ra body)
    (env : Env) (item : Item) (cid : Nat) (lp : List String) (w : World)
    (t : Trace) (stats : ScrapingStats) (m : String)
    (hc : is_file_current w item.id (pyEtag item) = false)
    (hd : env.download item.id = .error (.httpStatus 401 m)) :
    graphGet resp url =
      ⟨.error (.httpStatus 401 "Bearer token expired (401). Re-auth required."),
        [], 1⟩ ∧
    (downloadWithSemaphore env item cid lp w t stats).2.2 =
      { stats with files_error := stats.files_error + 1 } := by
  constructor
  · simp [graphGet, MAX_RETRIES, clientLoop, h1, getStep]
  · simp [downloadWithSemaphore, hc, download_item, hd]

/-- C3 witness: the amended statement at a concrete 401 run. -/
theorem c3_credential_expired_witness :
    graphGet (fun _ => Resp.status 401 none (0 : Nat)) "https://x" =
      ⟨.error (.httpStatus 401 "Bearer token expired (401). Re-auth required."),
        [], 1⟩ ∧
    (downloadWithSemaphore envTokenExpired itemA 7 lpA World.empty Trace.empty
        ScrapingStats.empty).2.2 =
      { ScrapingStats.empty with
          files_error := ScrapingStats.empty.files_error + 1 } :=
  c3_credential_expired_not_retried_but_caught
    (fun _ => Resp.status 401 none (0 : Nat)) "https://x" none 0 rfl
    envTokenExpired itemA 7 lpA World.empty Trace.empty ScrapingStats.empty
    "Bearer token expired during download." rfl rfl

/-- C4 counterexample: the claim states the delay before the next attempt
after a 429 equals `max(current backoff, hint)` and is never less than the
current backoff.  With a `Retry-After` hint of 1 on the first attempt
(current backoff 2.0), the embedded client sleeps exactly 1 second —
less than the current backoff and different from `max 2 1`. -/
theorem c4_counterexample :
    (graphGet (fun a =>
        if a = 1 then Resp.status 429 (some 1) (0 : Nat)
        else Resp.status 200 none 0) "u").sleeps = [1] ∧
    ([1] : List Nat) ≠ [max 2 1] :=
  ⟨rfl, by decide⟩

/-- C4 (amended): after a 429 the client sleeps the server's `Retry-After`
hint when present — even when it is below the current backoff — and the
current backoff otherwise; the backoff carried to subsequent attempts
becomes `max(twice the current backoff, hint)`; and 429 retries are
capped by the same `MAX_RETRIES` attempt budget as other retries, ending
in the retry-exhausted error. -/
theorem c4_rate_limited_behavior {α : Type} (ra : Option Nat) (body : α)
    (m401 : String) (delay : Nat) (url : String) (body' : α) :
    getStep (.status 429 ra body) m401 delay =
      .inr (ra.getD delay, max (delay * 2) (ra.getD delay)) ∧
    (graphGet (fun _ => Resp.status 429 (some 7) body') url).attempts =
      MAX_RETRIES ∧
    (graphGet (fun _ => Resp.status 429 (some 7) body') url).outcome =
      .error (.runtimeError ("Graph API request to '" ++ url ++
        "' failed after " ++ toString MAX_RETRIES ++ " retries.")) :=
  ⟨rfl, rfl, rfl⟩

/-- C7: transient network failures are retried with exponential backoff —
base 2.0 seconds, doubling each attempt — up to `MAX_RETRIES = 5`
attempts; when every attempt fails, both `_get` and `download_file` raise
a `RuntimeError` naming the failed call (url or item), with no further
attempts; when the failures stop after `j < 5` attempts, the call
succeeds on attempt `j + 1` having slept the doubling schedule
`2, 4, …, 2^j`. -/
theorem c7_transient_retry {α : Type} (m url itemId : String) (body : α)
    (j : Nat) (hj : j < MAX_RETRIES) :
    graphGet (α := α) (fun _ => .netErr m) url =
      ⟨.error (.runtimeError ("Graph API request to '" ++ url ++
        "' failed after " ++ toString MAX_RETRIES ++ " retries.")),
        [2, 4, 8, 16, 32], 5⟩ ∧
    downloadFile (α := α) (fun _ => .netErr m) itemId =
      ⟨.error (.runtimeError ("File download failed after " ++
        toString MAX_RETRIES ++ " retries (item " ++ itemId ++ ").")),
        [2, 4, 8, 16, 32], 5⟩ ∧
    graphGet (fun a => if a ≤ j then Resp.netErr m else Resp.status 200 none body)
        url =
      ⟨.ok body, (List.range j).map (fun i => 2 ^ (i + 1)), j + 1⟩ := by
  refine ⟨rfl, rfl, ?_⟩
  have hj5 : j < 5 := hj
  interval_cases j <;> rfl

/-- C7 witness: the retry schedule at `j = 2` transient failures. -/
theorem c7_transient_retry_witness :
    graphGet (α := Nat) (fun _ => .netErr "conn reset") "https://g/x" =
      ⟨.error (.runtimeError ("Graph API request to '" ++ "https://g/x" ++
        "' failed after " ++ toString MAX_RETRIES ++ " retries.")),
        [2, 4, 8, 16, 32], 5⟩ ∧
    downloadFile (α := Nat) (fun _ => .netErr "conn reset") "item-001" =
      ⟨.error (.runtimeError ("File download failed after " ++
        toString MAX_RETRIES ++ " retries (item " ++ "item-001" ++ ").")),
        [2, 4, 8, 16, 32], 5⟩ ∧
    graphGet (fun a => if a ≤ 2 then Resp.netErr "conn reset"
        else Resp.status 200 none (9 : Nat)) "https://g/x" =
      ⟨.ok 9, (List.range 2).map (fun i => 2 ^ (i + 1)), 2 + 1⟩ :=
  c7_transient_retry "conn reset" "https://g/x" "item-001" 9 2 (by decide)

/-- C6: when the channel listing raises forbidden on every attempt, the
orchestrator calls the primary-channel fallback exactly once and
classifies the team as `fallback` (incrementing only `teams_fallback`)
when the lookup succeeds, or as `denied` (incrementing only
`teams_denied`) when it raises — never both — and the site-drives pass of
`_process_team` still runs in either case. -/
theorem c6_discovery_fallback {α : Type} (lc : Nat → Except PyErr (List α))
    (err : Nat → PyErr) (primary : Except PyErr α) (stats : ScrapingStats)
    (hlc : ∀ a, lc a = .error (err a))
    (_hforb : ∀ a, isForbiddenExc (err a) = true) :
    (getChannelsWithFallback lc primary stats).2.2 = 1 ∧
    (∀ p, primary = .ok p →
      (getChannelsWithFallback lc primary stats).1 = some [p] ∧
      (getChannelsWithFallback lc primary stats).2.1 =
        { stats with teams_fallback := stats.teams_fallback + 1 }) ∧
    (∀ e, primary = .error e →
      (getChannelsWithFallback lc primary stats).1 = none ∧
      (getChannelsWithFallback lc primary stats).2.1 =
        { stats with teams_denied := stats.teams_denied + 1 }) ∧
    Phase.sitePass ∈
      processTeamPhases (getChannelsWithFallback lc primary stats).1 := by
  have hattempt : channelsAttempts lc (MAX_CHANNEL_RETRIES + 1) 1 = none := by
    simp [channelsAttempts, hlc 1, MAX_CHANNEL_RETRIES]
  cases primary with
  | ok p =>
    simp [getChannelsWithFallback, hattempt, sitePass_mem_processTeamPhases]
  | error e =>
    simp [getChannelsWithFallback, hattempt, sitePass_mem_processTeamPhases]

/-- C6 witness: forbidden listing on every attempt, successful primary
fallback. -/
theorem c6_discovery_fallback_witness :
    (getChannelsWithFallback (α := Nat)
        (fun _ => .error (.httpStatus 403 "403 Forbidden")) (.ok 9)
        ScrapingStats.empty).2.2 = 1 ∧
    (∀ p, (Except.ok 9 : Except PyErr Nat) = .ok p →
      (getChannelsWithFallback (fun _ => .error (.httpStatus 403 "403 Forbidden"))
          (.ok 9) ScrapingStats.empty).1 = some [p] ∧
      (getChannelsWithFallback (fun _ => .error (.httpStatus 403 "403 Forbidden"))
          (.ok 9) ScrapingStats.empty).2.1 =
        { ScrapingStats.empty with
            teams_fallback := ScrapingStats.empty.teams_fallback + 1 }) ∧
    (∀ e, (Except.ok 9 : Except PyErr Nat) = .error e →
      (getChannelsWithFallback (fun _ => .error (.httpStatus 403 "403 Forbidden"))
          (.ok 9) ScrapingStats.empty).1 = none ∧
      (getChannelsWithFallback (fun _ => .error (.httpStatus 403 "403 Forbidden"))
          (.ok 9) ScrapingStats.empty).2.1 =
        { ScrapingStats.empty with
            teams_denied := ScrapingStats.empty.teams_denied + 1 }) ∧
    Phase.sitePass ∈
      processTeamPhases
        (getChannelsWithFallback (α := Nat)
          (fun _ => .error (.httpStatus 403 "403 Forbidden")) (.ok 9)
          ScrapingStats.empty).1 :=
  by
  have h : isForbiddenExc (PyErr.httpStatus 403 "403 Forbidden") = true := by
    decide
  exact c6_discovery_fallback (fun _ => .error (.httpStatus 403 "403 Forbidden"))
    (fun _ => .httpStatus 403 "403 Forbidden") (.ok 9) ScrapingStats.empty
    (fun _ => rfl) (fun _ => h)

/-- Unrolling the `_get_all` paging loop along a finite chain of pages:
starting at page `k` of an `n`-page chain appends the remaining pages'
items, in page order, to the accumulator. -/
theorem getAllLoop_chain {α : Type} (n : Nat) (urls : Nat → String)
    (vals : Nat → List α) (fetch : String → Bool → PageBody α)
    (hf : ∀ i b, i < n → fetch (urls i) b =
      ⟨vals i, if i + 1 < n then some (urls (i + 1)) else none⟩) :
    ∀ (fuel k : Nat) (acc : List α), k < n → n - k ≤ fuel →
      getAllLoop fetch (urls 0) fuel (some (urls k)) acc =
        some (acc ++ ((List.range (n - k)).map (fun j => vals (k + j))).flatten) := by
  intro fuel
  induction fuel with
  | zero => intro k acc hk hfuel; omega
  | succ fuel ih =>
    intro k acc hk hfuel
    simp only [getAllLoop, hf k _ hk]
    by_cases hk1 : k + 1 < n
    · rw [if_pos hk1, ih (k + 1) (acc ++ vals k) hk1 (by omega)]
      have hnk : n - k = (n - (k + 1)) + 1 := by omega
      rw [hnk, List.range_succ_eq_map]
      simp only [List.map_cons, List.map_map, Nat.add_zero,
        List.append_assoc]
      have hmap : ∀ j, ((fun j => vals (k + j)) ∘ Nat.succ) j =
          (fun j => vals (k + 1 + j)) j := by
        intro j
        simp only [Function.comp]
        congr 1
        omega
      rw [List.map_congr_left (fun j _ => hmap j)]
      simp
    · rw [if_neg hk1]
      have hnk : n - k = 1 := by omega
      simp [getAllLoop, hnk, List.range_succ]

/-- C8: `_get_all` follows `@odata.nextLink` continuation links until none
remains and returns the concatenation of all pages' `value` lists in page
order. -/
theorem c8_pagination {α : Type} (n : Nat) (urls : Nat → String)
    (vals : Nat → List α) (fetch : String → Bool → PageBody α)
    (hf : ∀ i b, i < n → fetch (urls i) b =
      ⟨vals i, if i + 1 < n then some (urls (i + 1)) else none⟩)
    (hn : 0 < n) :
    getAll fetch (urls 0) n = some (((List.range n).map vals).flatten) := by
  have h := getAllLoop_chain n urls vals fetch hf n 0 [] hn (by omega)
  simpa using h

/-- C8 witness: a three-page chain concatenates to `[0, 1, 2]`. -/
theorem c8_pagination_witness :
    getAll fetch3 "a" 3 = some [0, 1, 2] :=
  c8_pagination 3 urls3 vals3 fetch3
    (by intro i b hi; interval_cases i <;> rfl) (by decide)

/-- C10: when listing a folder's children raises any exception,
`_walk_folder` returns normally with the world, the trace, and every
`ScrapingStats` counter exactly as they were — the subtree is silently
skipped and no counter (in particular not `files_error`) records the
failure. -/
theorem c10_listing_failure_silently_skipped (env : Env)
    (listChildren : String → Except PyErr (List Item)) (cid fuel : Nat)
    (itemId : String) (localBase : List String) (w : World) (t : Trace)
    (stats : ScrapingStats) (e : PyErr)
    (h : listChildren itemId = .error e) :
    walkFolder env listChildren cid (fuel + 1) itemId localBase (w, t, stats) =
      (w, t, stats) := by
  simp [walkFolder, h]

/-- C10 witness: a concrete failing listing leaves a concrete state
untouched. -/
theorem c10_listing_failure_witness :
    walkFolder envOK (fun _ => .error (.exc "boom")) 7 1 "root" ["downloads"]
      (World.empty, Trace.empty, ScrapingStats.empty) =
    (World.empty, Trace.empty, ScrapingStats.empty) :=
  c10_listing_failure_silently_skipped envOK (fun _ => .error (.exc "boom"))
    7 0 "root" ["downloads"] World.empty Trace.empty ScrapingStats.empty
    (.exc "boom") rfl

/-- No two adjacent characters of a name are both whitespace. -/
def noAdjWS (a b : Char) : Prop :=
  ¬(pyIsSpace a = true ∧ pyIsSpace b = true)

instance : DecidableRel noAdjWS := fun a b =>
  inferInstanceAs (Decidable (¬(pyIsSpace a = true ∧ pyIsSpace b = true)))

theorem mem_subIllegal_not_illegal {c : Char} {l : List Char}
    (h : c ∈ subIllegal l) : c ∉ illegalChars := by
  unfold subIllegal at h
  rcases List.mem_map.1 h with ⟨a, _, rfl⟩
  by_cases ha : a ∈ illegalChars
  · simp only [ha, if_true]
    decide
  · simp only [ha, if_false]
    trivial

theorem mem_collapseWSAux {c : Char} :
    ∀ {l : List Char} {b : Bool}, c ∈ collapseWSAux b l → c = ' ' ∨ c ∈ l := by
  intro l
  induction l with
  | nil => intro b h; simp [collapseWSAux] at h
  | cons a t ih =>
    intro b h
    by_cases hsp : pyIsSpace a
    · cases b with
      | true =>
        simp only [collapseWSAux, hsp, if_true] at h
        rcases ih h with h' | h'
        · exact .inl h'
        · exact .inr (List.mem_cons_of_mem _ h')
      | false =>
        simp only [collapseWSAux, hsp, if_true] at h
        rcases List.mem_cons.1 h with h' | h'
        · exact .inl h'
        · rcases ih h' with h'' | h''
          · exact .inl h''
          · exact .inr (List.mem_cons_of_mem _ h'')
    · simp only [collapseWSAux, hsp] at h
      rcases List.mem_cons.1 h with h' | h'
      · exact .inr (h' ▸ List.mem_cons_self a t)
      · rcases ih h' with h'' | h''
        · exact .inl h''
        · exact .inr (List.mem_cons_of_mem _ h'')

theorem mem_of_mem_dropWhileWS {c : Char} :
    ∀ {l : List Char}, c ∈ l.dropWhile pyIsSpace → c ∈ l := by
  intro l
  induction l with
  | nil => intro h; simp at h
  | cons a t ih =>
    intro h
    rw [List.dropWhile] at h
    by_cases hsp : pyIsSpace a
    · simp only [hsp, if_true] at h
      exact List.mem_cons_of_mem _ (ih h)
    · simpa [hsp] using h

theorem mem_pyStrip {c : Char} {l : List Char} (h : c ∈ pyStrip l) : c ∈ l := by
  unfold pyStrip at h
  rw [List.mem_reverse] at h
  have h1 := mem_of_mem_dropWhileWS h
  rw [List.mem_reverse] at h1
  exact mem_of_mem_dropWhileWS h1

theorem chain_collapseWSAux :
    ∀ (l : List Char) (b : Bool),
      (collapseWSAux b l).Chain' noAdjWS ∧
      (b = true → ∀ c, (collapseWSAux b l).head? = some c → pyIsSpace c = false) := by
  intro l
  induction l with
  | nil =>
    intro b
    refine ⟨List.chain'_nil, ?_⟩
    intro _ c hc
    simp [collapseWSAux] at hc
  | cons a t ih =>
    intro b
    by_cases hsp : pyIsSpace a
    · cases b with
      | true =>
        simpa only [collapseWSAux, hsp, if_true] using ih true
      | false =>
        simp only [collapseWSAux, hsp, if_true, Bool.false_eq_true, if_false]
        refine ⟨?_, fun h => by cases h⟩
        rw [List.chain'_cons']
        refine ⟨?_, (ih true).1⟩
        intro y hy
        have := (ih true).2 rfl y hy
        exact fun hand => by rw [this] at hand; exact Bool.noConfusion hand.2
    · have hspF : pyIsSpace a = false := by simpa using hsp
      simp only [collapseWSAux, hspF, Bool.false_eq_true, if_false]
      refine ⟨?_, ?_⟩
      · rw [List.chain'_cons']
        refine ⟨?_, (ih false).1⟩
        intro y hy
        exact fun hand => by rw [hspF] at hand; exact Bool.noConfusion hand.1
      · intro _ c hc
        simp only [List.head?] at hc
        cases hc
        exact hspF

theorem chain_dropWhileWS {l : List Char} (h : l.Chain' noAdjWS) :
    (l.dropWhile pyIsSpace).Chain' noAdjWS := by
  induction l with
  | nil => exact h
  | cons a t ih =>
    rw [List.dropWhile]
    by_cases hsp : pyIsSpace a
    · simp only [hsp, if_true]
      exact ih h.tail
    · simpa [hsp] using h

theorem noAdjWS_flip {a b : Char} (h : noAdjWS a b) : noAdjWS b a :=
  fun hand => h ⟨hand.2, hand.1⟩

theorem chain_pyStrip {l : List Char} (h : l.Chain' noAdjWS) :
    (pyStrip l).Chain' noAdjWS := by
  unfold pyStrip
  have h1 := chain_dropWhileWS h
  have h2 : ((l.dropWhile pyIsSpace).reverse).Chain' noAdjWS := by
    rw [List.chain'_reverse]
    exact h1.imp fun a b hab => noAdjWS_flip hab
  have h3 := chain_dropWhileWS h2
  rw [List.chain'_reverse]
  exact h3.imp fun a b hab => noAdjWS_flip hab

/-- C9: for every input string, `sanitize` returns a name containing no
file-system-illegal character, with no two adjacent whitespace characters
(every whitespace run was collapsed to a single space and the ends
stripped), and the result is never empty — an empty outcome is replaced
with the placeholder `"unnamed"`. -/
theorem c9_sanitize (s : String) :
    (∀ c ∈ (sanitize s).toList, c ∉ illegalChars) ∧
    (sanitize s).toList.Chain' noAdjWS ∧
    sanitize s ≠ "" := by
  unfold sanitize
  dsimp only
  split
  case isTrue h =>
    refine ⟨by decide, ?_, by decide⟩
    show List.Chain' noAdjWS ['u', 'n', 'n', 'a', 'm', 'e', 'd']
    repeat' (first | exact List.Chain.nil | refine List.Chain.cons (by decide) ?_)
  case isFalse h =>
    refine ⟨?_, ?_, ?_⟩
    · intro c hc
      have hc' : c ∈ pyStrip (collapseWS (subIllegal s.toList)) := hc
      have h1 := mem_pyStrip hc'
      rcases mem_collapseWSAux h1 with h2 | h2
      · subst h2; decide
      · exact mem_subIllegal_not_illegal h2
    · exact chain_pyStrip (chain_collapseWSAux (subIllegal s.toList) false).1
    · intro habs
      apply h
      have : (pyStrip (collapseWS (subIllegal s.toList))) = [] :=
        congrArg String.data habs
      rw [this]
      rfl
end BackupTeams
